import Mathlib

set_option maxRecDepth 100000

/-!
Shallow embedding of the moodework AirPlay metadata reconciliation engine.

Two revisions of the engine exist in the repository:
* `V1` models `src/aplmeta.py` (version 1.8.3, settle-window + fresh-cover +
  tiny-fragment filter + late-PID tolerance + cover-write grace poll).
* `V2` models `src/nowplayingproject/aplmeta files/aplmeta files/aplmeta.py`
  (version 1.8.4, sticky cover art revision).

Time is modelled as rational seconds.  Rational addition and subtraction are
routed through the executable `qadd`/`qsub` (proven equal to `+` and `-`
below) so that every definition evaluates by kernel reduction; likewise
`pyStartsWith`, `pySplit` and `pyStrip` are executable equivalents of the
Python string operations used by the source.

The file system (the cover-art cache directory) is modelled as a listing of
`(filename, mtime)` pairs supplied with each loop iteration; `pollCovers` is
the listing observed by the bounded pre-emit poll (the art writer may drop a
file while the poll sleeps).  Each loop iteration consumes one `Input`:
either a parsed metadata event or a `select` timeout (`ev = none`), and
produces the list of published lines.
-/

namespace Aplmeta

/-- Executable rational addition (kernel-reducible form of `+`). -/
def qadd (a b : ℚ) : ℚ := mkRat (a.num * b.den + b.num * a.den) (a.den * b.den)

/-- Executable rational subtraction (kernel-reducible form of `-`). -/
def qsub (a b : ℚ) : ℚ := mkRat (a.num * b.den - b.num * a.den) (a.den * b.den)

theorem qadd_eq (a b : ℚ) : qadd a b = a + b := by
  rw [qadd, Rat.mkRat_eq_div]
  conv_rhs => rw [← Rat.num_div_den a, ← Rat.num_div_den b]
  have ha : ((a.den : ℚ)) ≠ 0 := by exact_mod_cast a.den_nz
  have hb : ((b.den : ℚ)) ≠ 0 := by exact_mod_cast b.den_nz
  field_simp

theorem qsub_eq (a b : ℚ) : qsub a b = a - b := by
  rw [qsub, Rat.mkRat_eq_div]
  conv_rhs => rw [← Rat.num_div_den a, ← Rat.num_div_den b]
  have ha : ((a.den : ℚ)) ≠ 0 := by exact_mod_cast a.den_nz
  have hb : ((b.den : ℚ)) ≠ 0 := by exact_mod_cast b.den_nz
  field_simp
  ring

/-- Python `s.startswith(pre)`. -/
def pyStartsWith (s pre : String) : Bool := pre.toList.isPrefixOf s.toList

/-- Python `s.strip()`. -/
def pyStrip (s : String) : String :=
  ((s.toList.dropWhile Char.isWhitespace).reverse.dropWhile
      Char.isWhitespace).reverse.asString

/-- Worker for `pySplit`; the fuel is at least the length of the text so the
zero case is unreachable. -/
def pySplitGo (sep : List Char) : Nat → List Char → List Char → List (List Char)
  | 0, acc, rest => [acc.reverse ++ rest]
  | _+1, acc, [] => [acc.reverse]
  | fuel+1, acc, c :: cs =>
      if sep.isPrefixOf (c :: cs) then
        acc.reverse :: pySplitGo sep fuel [] (List.drop (sep.length - 1) cs)
      else pySplitGo sep fuel (c :: acc) cs

/-- Python `s.split(sep)` for a non-empty separator: non-overlapping
left-to-right scan. -/
def pySplit (s sep : String) : List String :=
  (pySplitGo sep.toList (s.toList.length + 1) [] s.toList).map List.asString

/-- Python `s.split(" ")[0]`. -/
def pySplitHead (s : String) : String := (pySplit s " ").headD ""

/-- Parsed metadata events, one per recognized line shape of `get_metadata`.
`trackLength` carries the raw regex group (before the `split(" ")[0]`). -/
inductive Ev where
  | title (v : String)
  | artist (v : String)
  | album (v : String)
  | trackLength (v : String)
  | persistentId (v : String)
  | pictureBytes (n : Nat)
deriving Repr, DecidableEq

/-- One iteration of the main loop: current wall clock, the cover cache
directory listing, the listing seen during the pre-emit poll, and the event
read from stdin (`none` when `select` timed out). -/
structure Input where
  now : ℚ
  covers : List (String × ℚ)
  pollCovers : List (String × ℚ)
  ev : Option Ev
deriving Repr

def COVERS_WEB_ROOT : String := "imagesw/airplay-covers/"
def DEFAULT_COVER_WEB : String := "images/default-album-cover.png"

def SETTLE_WINDOW_SEC : ℚ := mkRat 13 10
def MAX_WAIT_FOR_ART_SEC : ℚ := 1
def LATE_REFRESH_CUTOFF_SEC : ℚ := 2
def TRACK_EPOCH_GRACE_SEC : ℚ := mkRat 5 2
def LATE_PID_WINDOW_SEC : ℚ := 3

/-- Python `x or d` for an optional string: `None` and `""` are falsy. -/
def pyOr : Option String → String → String
  | some s, d => if s = "" then d else s
  | none, d => d

/-- Python truthiness of an optional string. -/
def pyTruthy : Option String → Bool
  | some s => !(s == "")
  | none => false

/-- Python `str.isdigit` (ASCII digits; true only on non-empty strings). -/
def pyIsDigit (s : String) : Bool :=
  !(s == "") && s.toList.all Char.isDigit

/-- `looks_garbage`: heuristic guard against decode/control-char junk. -/
def looks_garbage (s : String) : Bool :=
  if s = "" then false
  else if pyIsDigit s && decide (6 ≤ s.length) then true
  else if 2 ≤ s.toList.count '�' then true
  else if 2 ≤ s.toList.countP
      (fun c => (decide (c.toNat < 32) && !(c == '\t' || c == '\n' || c == '\r'))
                || decide (c.toNat = 127)) then true
  else false

/-- `cache_bust`: stable per-PID query suffix. -/
def cache_bust (pid : Option String) (url : String) : String :=
  url ++ "?v=" ++ pyOr pid "0x0"

def cover_url_from_path (pid : Option String) (p : String) : String :=
  cache_bust pid (COVERS_WEB_ROOT ++ p)

def default_cover_url (pid : Option String) : String :=
  cache_bust pid DEFAULT_COVER_WEB

/-- `newest_cover_path`: Python `max(covers, key=os.path.getmtime)` over the
glob listing (ties keep the earlier element, as `max` does). -/
def newest_cover_path : List (String × ℚ) → Option (String × ℚ)
  | [] => none
  | c :: rest => some (rest.foldl (fun acc x => if acc.2 < x.2 then x else acc) c)

/-- `newest_cover_path_fresh`: the newest cover, only if fresh for the track
epoch (`mtime ≥ epoch - grace`, with `epoch ≤ 0` yielding no candidate). -/
def newest_cover_path_fresh (covers : List (String × ℚ)) (epoch : ℚ) :
    Option String :=
  match newest_cover_path covers with
  | none => none
  | some pm =>
      if epoch ≤ 0 then none
      else if qsub epoch TRACK_EPOCH_GRACE_SEC ≤ pm.2 then some pm.1 else none

/-- The six-field serialized output line. -/
def payloadLine (t a al dur cover : String) : String :=
  t ++ "~~~" ++ a ++ "~~~" ++ al ++ "~~~" ++ dur ++ "~~~" ++ cover ++ "~~~ALAC/AAC"

namespace V1

/-- The process-wide mutable globals of `src/aplmeta.py`. -/
structure S where
  artist : Option String
  title : Option String
  album : Option String
  duration : String
  persistent_id : Option String
  picture_bytes : Option Nat
  track_epoch : ℚ
  pending : Bool
  pending_start : ℚ
  pending_deadline : ℚ
  pending_pid : Option String
  pending_title_at_start : Option String
  last_emitted : String
  last_emit_ts : ℚ
  last_emit_pid : Option String
  last_emit_used_default : Bool
  last_emit_title : Option String
  last_emit_artist : Option String
  last_emit_album : Option String
  last_emit_duration : Option String
deriving Repr, DecidableEq

/-- Initial global state of the process. -/
def initState : S :=
  { artist := none, title := none, album := none, duration := "0"
    persistent_id := none, picture_bytes := none, track_epoch := 0
    pending := false, pending_start := 0, pending_deadline := 0
    pending_pid := none, pending_title_at_start := none
    last_emitted := "", last_emit_ts := 0, last_emit_pid := none
    last_emit_used_default := false
    last_emit_title := none, last_emit_artist := none
    last_emit_album := none, last_emit_duration := none }

/-- `reset_track_state`: reset per-track globals (keeps emit history line,
timestamp and PID). -/
def reset_track_state (s : S) : S :=
  { s with artist := none, title := none, album := none, duration := "0"
           picture_bytes := none
           pending := false, pending_start := 0, pending_deadline := 0
           pending_pid := none, pending_title_at_start := none
           last_emit_title := none, last_emit_artist := none
           last_emit_album := none, last_emit_duration := none
           last_emit_used_default := false }

/-- `is_tiny_title_fragment`: suppress a short title right after an emit for
the same PID. -/
def is_tiny_title_fragment (s : S) (now : ℚ) (new_title : String) : Bool :=
  if new_title = "" then false
  else if 6 ≤ (pyStrip new_title).length then false
  else if 2 ≤ qsub now s.last_emit_ts then false
  else if pyTruthy s.persistent_id && pyTruthy s.last_emit_pid
          && (s.persistent_id == s.last_emit_pid) then true
  else false

/-- `choose_cover_url_no_poll`. -/
def choose_cover_url_no_poll (s : S) (covers : List (String × ℚ)) : String :=
  if s.picture_bytes = some 0 then default_cover_url s.persistent_id
  else
    match newest_cover_path_fresh covers s.track_epoch with
    | some p => cover_url_from_path s.persistent_id p
    | none => default_cover_url s.persistent_id

/-- `maybe_poll_for_fresh_cover`: bounded poll, re-running the freshness test;
the poll observes `pollCovers` after the initial snapshot. -/
def maybe_poll_for_fresh_cover (s : S) (inp : Input) : String :=
  if s.picture_bytes = some 0 then default_cover_url s.persistent_id
  else
    match newest_cover_path_fresh inp.covers s.track_epoch with
    | some p => cover_url_from_path s.persistent_id p
    | none =>
        match newest_cover_path_fresh inp.pollCovers s.track_epoch with
        | some p => cover_url_from_path s.persistent_id p
        | none => default_cover_url s.persistent_id

/-- `emit_payload`: serialize, dedupe against the last published line, write
to both sinks and record emit bookkeeping. -/
def emit_payload (s : S) (now : ℚ) (t a al dur cover : String) :
    S × List String :=
  let metadata := payloadLine t a al dur cover
  if metadata = s.last_emitted then (s, [])
  else
    ({ s with last_emitted := metadata, last_emit_ts := now
              last_emit_pid := s.persistent_id
              last_emit_used_default := pyStartsWith cover DEFAULT_COVER_WEB
              last_emit_title := some t, last_emit_artist := some a
              last_emit_album := some al, last_emit_duration := some dur },
     [metadata])

/-- `start_settle_window`: arm the debounce window, or restart it only when
the PID changed since arming. -/
def start_settle_window (s : S) (now : ℚ) : S :=
  if !s.pending then
    { s with pending := true, pending_start := now
             pending_pid := s.persistent_id
             pending_deadline := qadd now SETTLE_WINDOW_SEC
             pending_title_at_start := s.title }
  else if s.pending_pid ≠ s.persistent_id then
    { s with pending_start := now
             pending_pid := s.persistent_id
             pending_deadline := qadd now SETTLE_WINDOW_SEC
             pending_title_at_start := s.title }
  else s

/-- `maybe_extend_deadline_for_art`. -/
def maybe_extend_deadline_for_art (s : S) (now : ℚ) : S :=
  if !s.pending then s
  else
    let hard_cap := qadd s.pending_start MAX_WAIT_FOR_ART_SEC
    if hard_cap ≤ now then s
    else
      let new_deadline := min hard_cap (max s.pending_deadline (qadd now (mkRat 7 20)))
      if qadd s.pending_deadline (mkRat 1 20) < new_deadline then
        { s with pending_deadline := new_deadline }
      else s

/-- `emit_pending`: validate, normalize missing fields, choose the cover
(polling if it would otherwise be the default) and emit. -/
def emit_pending (s : S) (inp : Input) : S × List String :=
  if !s.pending then (s, [])
  else if s.pending_pid ≠ s.persistent_id then ({ s with pending := false }, [])
  else if !(pyTruthy s.title) then ({ s with pending := false }, [])
  else
    let t := pyOr s.title ""
    let al := pyOr s.album "AirPlay Source"
    let a := pyOr s.artist ""
    let dur := if s.duration = "" then "0" else s.duration
    let cover0 := choose_cover_url_no_poll s inp.covers
    let cover :=
      if pyStartsWith cover0 DEFAULT_COVER_WEB && !(s.picture_bytes == some 0)
      then maybe_poll_for_fresh_cover s inp else cover0
    let r := emit_payload s inp.now t a al dur cover
    ({ r.1 with pending := false, pending_start := 0, pending_deadline := 0
                pending_pid := none, pending_title_at_start := none }, r.2)

/-- `maybe_late_refresh_on_art`: one-shot re-emit with art shortly after an
emit that used the default cover. -/
def maybe_late_refresh_on_art (s : S) (inp : Input) : S × List String :=
  if !(pyTruthy s.persistent_id) then (s, [])
  else if !(pyTruthy s.last_emit_pid) || s.persistent_id ≠ s.last_emit_pid then (s, [])
  else if !s.last_emit_used_default then (s, [])
  else if LATE_REFRESH_CUTOFF_SEC < qsub inp.now s.last_emit_ts then (s, [])
  else if s.picture_bytes = some 0 then (s, [])
  else
    match newest_cover_path_fresh inp.covers s.track_epoch with
    | none => (s, [])
    | some p =>
        let cover := cover_url_from_path s.persistent_id p
        let t := pyOr s.last_emit_title (pyOr s.title "")
        let a := pyOr s.last_emit_artist (pyOr s.artist "")
        let al := pyOr s.last_emit_album (pyOr s.album "AirPlay Source")
        let dur := pyOr s.last_emit_duration
          (if s.duration = "" then "0" else s.duration)
        if t = "" then (s, [])
        else emit_payload s inp.now t a al dur cover

/-- `is_late_pid_update`: detect a PID correction for the same track. -/
def is_late_pid_update (s : S) (now : ℚ) : Bool :=
  if s.pending && pyTruthy s.pending_title_at_start && pyTruthy s.title
     && (s.title == s.pending_title_at_start)
     && decide (qsub now s.pending_start ≤ LATE_PID_WINDOW_SEC) then true
  else if pyTruthy s.last_emit_title && pyTruthy s.title
     && (s.title == s.last_emit_title)
     && decide (qsub now s.last_emit_ts ≤ LATE_PID_WINDOW_SEC) then true
  else false

/-- One iteration of the `main` loop body. -/
def step (s : S) (inp : Input) : S × List String :=
  match inp.ev with
  | none =>
      if s.pending && decide (s.pending_deadline ≤ inp.now) then
        emit_pending s inp
      else (s, [])
  | some (.persistentId v) =>
      if s.persistent_id = some v then (s, [])
      else if s.persistent_id ≠ none && is_late_pid_update s inp.now then
        ({ s with persistent_id := some v
                  pending_pid := if s.pending then some v else s.pending_pid }, [])
      else
        (reset_track_state
          { s with persistent_id := some v, track_epoch := inp.now }, [])
  | some (.pictureBytes n) =>
      let s1 := { s with picture_bytes := some n }
      let s2 := if s1.pending && decide (0 < n) then
                  maybe_extend_deadline_for_art s1 inp.now
                else s1
      if 0 < n then maybe_late_refresh_on_art s2 inp else (s2, [])
  | some (.artist v) =>
      if !(looks_garbage v) then ({ s with artist := some v }, []) else (s, [])
  | some (.album v) =>
      if !(looks_garbage v) then ({ s with album := some v }, []) else (s, [])
  | some (.trackLength v) =>
      let dv := pySplitHead v
      if !(looks_garbage dv) then ({ s with duration := dv }, []) else (s, [])
  | some (.title v) =>
      if looks_garbage v then (s, [])
      else
        let s1 := if s.track_epoch ≤ 0 then { s with track_epoch := inp.now } else s
        if is_tiny_title_fragment s1 inp.now v then (s1, [])
        else (start_settle_window { s1 with title := some v } inp.now, [])

/-- Run the loop over a list of inputs, collecting all published lines. -/
def run (s : S) : List Input → S × List String
  | [] => (s, [])
  | inp :: rest =>
      let r := step s inp
      let r2 := run r.1 rest
      (r2.1, r.2 ++ r2.2)

end V1

namespace V2

/-- The process-wide mutable globals of the sticky-cover revision. -/
structure S where
  artist : Option String
  title : Option String
  album : Option String
  duration : String
  persistent_id : Option String
  picture_bytes : Option Nat
  track_epoch : ℚ
  have_cover_art : Bool
  pending : Bool
  pending_start : ℚ
  pending_deadline : ℚ
  pending_pid : Option String
  pending_title_at_start : Option String
  last_emitted : String
  last_emit_ts : ℚ
  last_emit_pid : Option String
  last_emit_used_default : Bool
  last_emit_title : Option String
  last_emit_artist : Option String
  last_emit_album : Option String
  last_emit_duration : Option String
deriving Repr, DecidableEq

/-- Initial global state of the process. -/
def initState : S :=
  { artist := none, title := none, album := none, duration := "0"
    persistent_id := none, picture_bytes := none, track_epoch := 0
    have_cover_art := false
    pending := false, pending_start := 0, pending_deadline := 0
    pending_pid := none, pending_title_at_start := none
    last_emitted := "", last_emit_ts := 0, last_emit_pid := none
    last_emit_used_default := false
    last_emit_title := none, last_emit_artist := none
    last_emit_album := none, last_emit_duration := none }

/-- `reset_track_state` (sticky revision): resets fields, picture hint,
pending flag and the sticky art lock. -/
def reset_track_state (s : S) : S :=
  { s with artist := none, title := none, album := none, duration := "0"
           picture_bytes := none, pending := false, have_cover_art := false }

/-- `choose_cover_url` (sticky revision).  Returns the new value of
`have_cover_art` together with the chosen URL.  When no fresh cover exists
but art was locked, the cover field is recovered by splitting the last
published line on the delimiter and taking index 4 (falling back to the
default URL when the index is out of range). -/
def choose_cover_url (s : S) (covers : List (String × ℚ)) : Bool × String :=
  if s.picture_bytes = some 0 then
    if s.have_cover_art && !(s.last_emitted == "") then
      (s.have_cover_art,
       (pySplit s.last_emitted "~~~").getD 4 (default_cover_url s.persistent_id))
    else (s.have_cover_art, default_cover_url s.persistent_id)
  else
    match newest_cover_path_fresh covers s.track_epoch with
    | some p => (true, cover_url_from_path s.persistent_id p)
    | none =>
        if s.have_cover_art && !(s.last_emitted == "") then
          (s.have_cover_art,
           (pySplit s.last_emitted "~~~").getD 4 (default_cover_url s.persistent_id))
        else (s.have_cover_art, default_cover_url s.persistent_id)

/-- `maybe_poll_for_fresh_cover` (sticky revision): bounded poll re-running
the freshness test; locks the art flag when a fresh cover is found. -/
def maybe_poll_for_fresh_cover (s : S) (inp : Input) : Bool × String :=
  match newest_cover_path_fresh inp.covers s.track_epoch with
  | some p => (true, cover_url_from_path s.persistent_id p)
  | none =>
      match newest_cover_path_fresh inp.pollCovers s.track_epoch with
      | some p => (true, cover_url_from_path s.persistent_id p)
      | none => (s.have_cover_art, default_cover_url s.persistent_id)

/-- `emit` (sticky revision): dedupe against the last published line, but
re-emit anyway when the current PID matches the PID of the last emit
(AirPlay PID reuse on resume/reconnect). -/
def emit (s : S) (now : ℚ) (t a al dur cover : String) : S × List String :=
  let payload := payloadLine t a al dur cover
  if payload = s.last_emitted
     && !(pyTruthy s.persistent_id && (s.last_emit_pid == s.persistent_id)) then
    (s, [])
  else
    ({ s with last_emitted := payload, last_emit_ts := now
              last_emit_pid := s.persistent_id
              last_emit_used_default := pyStartsWith cover DEFAULT_COVER_WEB
              last_emit_title := some t, last_emit_artist := some a
              last_emit_album := some al, last_emit_duration := some dur },
     [payload])

/-- The settle-deadline branch of the sticky revision's main loop. -/
def fire_pending (s : S) (inp : Input) : S × List String :=
  if pyTruthy s.title && (s.pending_pid == none || s.pending_pid == s.persistent_id) then
    let c0 := choose_cover_url s inp.covers
    let s1 : S := { s with have_cover_art := c0.1 }
    let c1 :=
      if pyStartsWith c0.2 DEFAULT_COVER_WEB && !(s1.picture_bytes == some 0)
      then maybe_poll_for_fresh_cover s1 inp else (s1.have_cover_art, c0.2)
    let s2 : S := { s1 with have_cover_art := c1.1 }
    let s3 : S :=
      if !(c1.2 == "") && !(pyStartsWith c1.2 DEFAULT_COVER_WEB) then
        { s2 with have_cover_art := true }
      else s2
    let r := emit s3 inp.now (pyOr s3.title "") (pyOr s3.artist "")
      (pyOr s3.album "AirPlay Source")
      (if s3.duration = "" then "0" else s3.duration) c1.2
    ({ r.1 with pending := false }, r.2)
  else ({ s with pending := false }, [])

/-- One iteration of the sticky revision's `main` loop body. -/
def step (s : S) (inp : Input) : S × List String :=
  match inp.ev with
  | none =>
      if s.pending && decide (s.pending_deadline ≤ inp.now) then
        fire_pending s inp
      else (s, [])
  | some (.persistentId v) =>
      if s.persistent_id = some v then (s, [])
      else
        let s1 := reset_track_state
          { s with persistent_id := some v, track_epoch := inp.now }
        ({ s1 with pending := false, pending_pid := some v
                   pending_title_at_start := none }, [])
  | some (.pictureBytes n) =>
      let s1 : S := { s with picture_bytes := some n }
      let r :=
        if decide (0 < n) && pyTruthy s1.title
           && (s1.last_emit_pid == s1.persistent_id) && s1.last_emit_used_default then
          let c := choose_cover_url s1 inp.covers
          let s2 : S := { s1 with have_cover_art := c.1 }
          if !(pyStartsWith c.2 DEFAULT_COVER_WEB) then
            emit { s2 with have_cover_art := true } inp.now
              (pyOr s2.title "") (pyOr s2.artist "")
              (pyOr s2.album "AirPlay Source")
              (if s2.duration = "" then "0" else s2.duration) c.2
          else (s2, [])
        else (s1, [])
      let s3 := r.1
      if s3.pending && decide (0 < n) then
        let hard_cap := qadd s3.pending_start MAX_WAIT_FOR_ART_SEC
        if inp.now < hard_cap then
          let nd := min hard_cap (max s3.pending_deadline (qadd inp.now (mkRat 7 20)))
          ({ s3 with pending_deadline := nd }, r.2)
        else (s3, r.2)
      else (s3, r.2)
  | some (.artist v) => ({ s with artist := some v }, [])
  | some (.album v) => ({ s with album := some v }, [])
  | some (.trackLength v) => ({ s with duration := pySplitHead v }, [])
  | some (.title v) =>
      let s1 : S := { s with title := some v }
      let s2 : S := if s1.track_epoch ≤ 0 then { s1 with track_epoch := inp.now } else s1
      ({ s2 with pending := true, pending_pid := s2.persistent_id
                 pending_title_at_start := s2.title
                 pending_start := inp.now
                 pending_deadline := qadd inp.now SETTLE_WINDOW_SEC }, [])

/-- Run the sticky revision's loop over a list of inputs. -/
def run (s : S) : List Input → S × List String
  | [] => (s, [])
  | inp :: rest =>
      let r := step s inp
      let r2 := run r.1 rest
      (r2.1, r.2 ++ r2.2)

end V2

/-! Concrete scenario data used by the claim theorems. -/

/-- C1 scenario: `Identity(0xAA)`, `Title("Song")`, `Artist("Band")`,
`Album Name("Record")`, `Track length("210 seconds")`, no picture events, no
cover files, then the settle window elapses (two timeouts). -/
def c1Inputs : List Input :=
  [ ⟨100, [], [], some (.persistentId "0xAA")⟩
  , ⟨mkRat 1001 10, [], [], some (.title "Song")⟩
  , ⟨mkRat 1002 10, [], [], some (.artist "Band")⟩
  , ⟨mkRat 1003 10, [], [], some (.album "Record")⟩
  , ⟨mkRat 1004 10, [], [], some (.trackLength "210 seconds")⟩
  , ⟨mkRat 1015 10, [], [], none⟩
  , ⟨102, [], [], none⟩ ]

/-- C3 prefix trace: session 0x01, a title containing the delimiter, a
duration value equal to the placeholder reference, a fresh cover file, and a
settle-deadline publish that locks the sticky art flag. -/
def c3Pre : List Input :=
  [ ⟨10, [("cover-abc.jpg", 9)], [], some (.persistentId "0x01")⟩
  , ⟨mkRat 101 10, [("cover-abc.jpg", 9)], [], some (.title "A~~~B")⟩
  , ⟨mkRat 102 10, [("cover-abc.jpg", 9)], [],
      some (.trackLength "images/default-album-cover.png?v=0x01")⟩
  , ⟨mkRat 115 10, [("cover-abc.jpg", 9)], [], none⟩ ]

/-- C3 full trace: after the lock, the cover file disappears, a new title
arrives for the same session, and the settle window fires again. -/
def c3Inputs : List Input :=
  c3Pre ++
  [ ⟨mkRat 121 10, [], [], some (.title "C")⟩
  , ⟨mkRat 135 10, [], [], none⟩ ]

/-- C5 counterexample state: an artist is already stored. -/
def c5S : V1.S := { V1.initState with artist := some "Band" }

/-- C6 counterexample state: a publish for session 0x0A happened at t = 100
with title "Imagine"; the current identity token equals the one at that
publish. -/
def c6S : V1.S :=
  { V1.initState with
      persistent_id := some "0x0A", last_emit_pid := some "0x0A"
      last_emit_ts := 100, title := some "Imagine", track_epoch := 50
      last_emitted := "Imagine~~~X~~~Y~~~0~~~c~~~ALAC/AAC"
      last_emit_title := some "Imagine" }

/-- C7 failing state for the sticky revision: a window is armed for session
0x01 with `titleAtArm = "Song"` equal to the current title. -/
def c7S : V2.S :=
  { V2.initState with
      persistent_id := some "0x01", title := some "Song", track_epoch := 90
      artist := some "Band", pending := true, pending_start := 100
      pending_deadline := mkRat 1013 10, pending_pid := some "0x01"
      pending_title_at_start := some "Song" }

/-- The same situation in the primary revision's state space. -/
def c7S1 : V1.S :=
  { V1.initState with
      persistent_id := some "0x01", title := some "Song", track_epoch := 90
      artist := some "Band", pending := true, pending_start := 100
      pending_deadline := mkRat 1013 10, pending_pid := some "0x01"
      pending_title_at_start := some "Song" }

/-- C8 counterexample state for the sticky revision: a window is armed for
session 0x01 and the session key has not changed. -/
def c8S : V2.S :=
  { V2.initState with
      persistent_id := some "0x01", title := some "First Song", track_epoch := 90
      pending := true, pending_start := 100, pending_deadline := mkRat 1013 10
      pending_pid := some "0x01", pending_title_at_start := some "First Song" }

/-- The line last published in the C9 counterexample. -/
def c9Line : String :=
  payloadLine "Song" "Band" "Record" "210" "images/default-album-cover.png?v=0x01"

/-- C9 counterexample state for the primary revision: the last publish was
`c9Line` and belonged to the current session 0x01. -/
def c9S : V1.S :=
  { V1.initState with
      persistent_id := some "0x01", last_emit_pid := some "0x01"
      last_emitted := c9Line, last_emit_ts := 100 }

/-- C9 witness state for the sticky revision, same situation. -/
def c9S2 : V2.S :=
  { V2.initState with
      persistent_id := some "0x01", last_emit_pid := some "0x01"
      last_emitted := c9Line, last_emit_ts := 100 }

/-- C10 witness state: only a title was ever received. -/
def c10S : V1.S :=
  { V1.initState with
      title := some "Song", track_epoch := 100
      pending := true, pending_start := 100, pending_deadline := mkRat 1013 10
      pending_title_at_start := some "Song" }

/-! Helper lemmas. -/

/-- The fold used by `newest_cover_path` picks an element of the list. -/
lemma foldl_newest_mem (l : List (String × ℚ)) (a : String × ℚ) :
    l.foldl (fun acc x => if acc.2 < x.2 then x else acc) a ∈ a :: l := by
  induction l generalizing a with
  | nil => simp
  | cons x xs ih =>
    simp only [List.foldl_cons]
    rcases List.mem_cons.mp (ih (if a.2 < x.2 then x else a)) with h1 | h2
    · rw [h1]
      split
      · exact List.mem_cons_of_mem _ (List.mem_cons_self _ _)
      · exact List.mem_cons_self _ _
    · exact List.mem_cons_of_mem _ (List.mem_cons_of_mem _ h2)

/-- `newest_cover_path` returns an element of the directory listing. -/
lemma newest_cover_path_mem {covers : List (String × ℚ)} {c : String × ℚ}
    (h : newest_cover_path covers = some c) : c ∈ covers := by
  cases covers with
  | nil => simp [newest_cover_path] at h
  | cons a l =>
    simp only [newest_cover_path, Option.some.injEq] at h
    rw [← h]
    exact foldl_newest_mem l a

/-- A serialized payload line is never the empty string. -/
lemma payloadLine_ne_empty (t a al dur cover : String) :
    payloadLine t a al dur cover ≠ "" := by
  intro h
  have h2 := congrArg String.length h
  have h3 : String.length "~~~ALAC/AAC" = 11 := rfl
  have h4 : String.length "~~~" = 3 := rfl
  have h5 : String.length "" = 0 := rfl
  simp only [payloadLine, String.length_append, h3, h4, h5] at h2
  omega

/-! Claim theorems. -/

/-- C1: for the input sequence Identity(0xAA), Title("Song"), Artist("Band"),
Album Name("Record"), Track length("210 seconds"), with no picture events and
no fresh cover file, once the settle window elapses the engine publishes
exactly one record, whose serialized line is the six fields joined by `~~~`:
`Song~~~Band~~~Record~~~210~~~images/default-album-cover.png?v=0xAA~~~ALAC/AAC`,
the cover reference being the placeholder suffixed by `?v=0xAA`. -/
theorem c1_end_to_end :
    (V1.run V1.initState c1Inputs).2 =
      ["Song~~~Band~~~Record~~~210~~~images/default-album-cover.png?v=0xAA~~~ALAC/AAC"] := by
  decide

/-- C2: for every session with epoch > 0 and every cached art file whose
modification time is strictly below epoch minus the 2.5-second grace, the
cover resolver never returns that file as fresh (file names in a directory
listing are distinct). -/
theorem c2_stale_cover_never_fresh (covers : List (String × ℚ)) (epoch : ℚ)
    (p : String) (m : ℚ)
    (hnd : (covers.map Prod.fst).Nodup) (hepoch : 0 < epoch)
    (hmem : (p, m) ∈ covers) (hstale : m < epoch - TRACK_EPOCH_GRACE_SEC) :
    newest_cover_path_fresh covers epoch ≠ some p := by
  intro hres
  unfold newest_cover_path_fresh at hres
  cases hnew : newest_cover_path covers with
  | none => rw [hnew] at hres; exact Option.noConfusion hres
  | some pm =>
    rw [hnew] at hres
    have hres2 : (if epoch ≤ 0 then none
        else if qsub epoch TRACK_EPOCH_GRACE_SEC ≤ pm.2 then some pm.1
        else none) = some p := hres
    rw [if_neg (not_le.mpr hepoch)] at hres2
    by_cases hfresh : qsub epoch TRACK_EPOCH_GRACE_SEC ≤ pm.2
    · rw [if_pos hfresh] at hres2
      have hpm : pm ∈ covers := newest_cover_path_mem hnew
      have hfst : pm.1 = p := Option.some.inj hres2
      have heq : (p, m) = pm := by
        apply List.inj_on_of_nodup_map hnd hmem hpm
        simp [hfst]
      have hm2 : m = pm.2 := by rw [← heq]
      rw [qsub_eq] at hfresh
      rw [← hm2] at hfresh
      linarith
    · rw [if_neg hfresh] at hres2
      exact Option.noConfusion hres2

/-- Witness for C2 at a concrete input: a single cover file with mtime 1 is
stale for epoch 10 and is not returned. -/
theorem c2_stale_cover_never_fresh_witness :
    newest_cover_path_fresh [("cover-a.jpg", 1)] 10 ≠ some "cover-a.jpg" :=
  c2_stale_cover_never_fresh [("cover-a.jpg", 1)] 10 "cover-a.jpg" 1
    (by decide) (by norm_num) (by decide)
    (by norm_num [TRACK_EPOCH_GRACE_SEC, Rat.mkRat_eq_div])

/-- C3 (failing-input evaluation): in the sticky revision, after a
settle-deadline publish locks the art flag for session 0x01 (`c3Pre`), a
later publish in the same session (`c3Inputs`) uses exactly the placeholder
reference `images/default-album-cover.png?v=0x01` as its cover field, because
the sticky fallback re-parses the previously published line by splitting on
`~~~` and the title "A~~~B" shifted the cover index onto the duration field. -/
theorem c3_sticky_violation_eval :
    (V2.run V2.initState c3Pre).1.have_cover_art = true ∧
    (V2.run V2.initState c3Pre).1.persistent_id = some "0x01" ∧
    (V2.run V2.initState c3Inputs).1.persistent_id = some "0x01" ∧
    (V2.run V2.initState c3Inputs).2 =
      [ payloadLine "A~~~B" "" "AirPlay Source"
          (default_cover_url (some "0x01"))
          "imagesw/airplay-covers/cover-abc.jpg?v=0x01"
      , payloadLine "C" "" "AirPlay Source"
          (default_cover_url (some "0x01"))
          (default_cover_url (some "0x01")) ] := by
  exact ⟨by decide, by decide, by decide, by decide⟩

/-- C7 (failing-input evaluation): in the sticky revision an identity change
arriving 1 second after arming, with the current title equal to the title at
arming, still resets all fields and establishes a new epoch (`c7S`), while
the primary revision keeps the fields and epoch and merely relabels the
session key (`c7S1`); the primary revision does reset when the change
arrives 5 seconds after arming. -/
theorem c7_late_identity_eval :
    (V2.step c7S ⟨101, [], [], some (.persistentId "0x02")⟩).1.title = none ∧
    (V2.step c7S ⟨101, [], [], some (.persistentId "0x02")⟩).1.artist = none ∧
    (V2.step c7S ⟨101, [], [], some (.persistentId "0x02")⟩).1.track_epoch = 101 ∧
    (V2.step c7S ⟨101, [], [], some (.persistentId "0x02")⟩).1.have_cover_art = false ∧
    (V1.step c7S1 ⟨101, [], [], some (.persistentId "0x02")⟩).1.title = some "Song" ∧
    (V1.step c7S1 ⟨101, [], [], some (.persistentId "0x02")⟩).1.artist = some "Band" ∧
    (V1.step c7S1 ⟨101, [], [], some (.persistentId "0x02")⟩).1.track_epoch = 90 ∧
    (V1.step c7S1 ⟨101, [], [], some (.persistentId "0x02")⟩).1.persistent_id = some "0x02" ∧
    (V1.step c7S1 ⟨105, [], [], some (.persistentId "0x02")⟩).1.title = none ∧
    (V1.step c7S1 ⟨105, [], [], some (.persistentId "0x02")⟩).1.track_epoch = 105 := by
  decide

/-- Arming the settle window never changes the stored title. -/
lemma start_settle_window_title (s : V1.S) (now : ℚ) :
    (V1.start_settle_window s now).title = s.title := by
  unfold V1.start_settle_window
  split_ifs <;> rfl

/-- After arming the settle window the pending flag is set. -/
lemma start_settle_window_pending (s : V1.S) (now : ℚ) :
    (V1.start_settle_window s now).pending = true := by
  unfold V1.start_settle_window
  split_ifs with h1 h2 <;> simp_all

/-- A non-empty purely numeric string of length at least 6 is flagged as
garbage. -/
lemma looks_garbage_of_digits (v : String)
    (h1 : pyIsDigit v = true) (h2 : 6 ≤ v.length) :
    looks_garbage v = true := by
  have hne : v ≠ "" := by
    intro h
    subst h
    simp [pyIsDigit] at h1
  simp [looks_garbage, hne, h1, h2]

/-- C4 (counterexample): the sticky revision performs no sanitization — a
Title event whose value is the 8-digit string "12345678" is stored directly
into the session's title field. -/
theorem c4_counterexample :
    (V2.step V2.initState ⟨100, [], [], some (.title "12345678")⟩).1.title =
      some "12345678" := by
  decide

/-- C4 (amended): in the primary revision, a purely numeric value of length
at least 6 is rejected by `looks_garbage`, so a Title, Artist or Album event
carrying it leaves the whole state unchanged and nothing is stored. -/
theorem c4_numeric_rejected_v1 (s : V1.S) (now : ℚ)
    (cov pc : List (String × ℚ)) (v : String)
    (h1 : pyIsDigit v = true) (h2 : 6 ≤ v.length) :
    V1.step s ⟨now, cov, pc, some (.title v)⟩ = (s, []) ∧
    V1.step s ⟨now, cov, pc, some (.artist v)⟩ = (s, []) ∧
    V1.step s ⟨now, cov, pc, some (.album v)⟩ = (s, []) := by
  have hg := looks_garbage_of_digits v h1 h2
  refine ⟨?_, ?_, ?_⟩ <;> simp [V1.step, hg]

/-- Witness for C4 at the concrete 8-digit input. -/
theorem c4_numeric_rejected_v1_witness :
    V1.step V1.initState ⟨0, [], [], some (.title "12345678")⟩ =
      (V1.initState, []) :=
  (c4_numeric_rejected_v1 V1.initState 0 [] [] "12345678"
    (by decide) (by decide)).1

/-- C5 (counterexample): an Artist event carrying the empty string is not a
no-op — it overwrites the stored artist "Band" with the empty string. -/
theorem c5_counterexample :
    c5S.artist = some "Band" ∧
    (V1.step c5S ⟨100, [], [], some (.artist "")⟩).1.artist = some "" := by
  exact ⟨by decide, by decide⟩

/-- C5 (amended): an empty Title/Artist/Album value passes the sanitizer
(`looks_garbage "" = false`) and is stored, overwriting the existing field
with the empty string; an empty Title also arms the settle window (although
emission is later canceled while the title is empty). -/
theorem c5_empty_overwrites (s : V1.S) (now : ℚ) (cov pc : List (String × ℚ)) :
    looks_garbage "" = false ∧
    (V1.step s ⟨now, cov, pc, some (.artist "")⟩).1.artist = some "" ∧
    (V1.step s ⟨now, cov, pc, some (.album "")⟩).1.album = some "" ∧
    (V1.step s ⟨now, cov, pc, some (.title "")⟩).1.title = some "" ∧
    (V1.step s ⟨now, cov, pc, some (.title "")⟩).1.pending = true := by
  have hstep : V1.step s ⟨now, cov, pc, some (.title "")⟩ =
      (V1.start_settle_window
        { (if s.track_epoch ≤ 0 then { s with track_epoch := now } else s) with
            title := some "" } now, []) := rfl
  refine ⟨rfl, rfl, rfl, ?_, ?_⟩
  · rw [hstep, start_settle_window_title]
  · rw [hstep]
    exact start_settle_window_pending _ _

/-- Shape of a loop iteration on a sanitization-passing Title event. -/
lemma step_title_eq (s : V1.S) (now : ℚ) (cov pc : List (String × ℚ))
    (v : String) (hg : looks_garbage v = false) :
    V1.step s ⟨now, cov, pc, some (.title v)⟩ =
      (if V1.is_tiny_title_fragment
            (if s.track_epoch ≤ 0 then { s with track_epoch := now } else s) now v
       then ((if s.track_epoch ≤ 0 then { s with track_epoch := now } else s), [])
       else (V1.start_settle_window
          { (if s.track_epoch ≤ 0 then { s with track_epoch := now } else s) with
              title := some v } now, [])) := by
  simp only [V1.step, hg, Bool.false_eq_true, if_false]

/-- C6 (counterexample): an empty Title event 0.5 seconds after a publish for
the same identity token is not suppressed — the title field is overwritten
with the empty string and the settle window is armed.  (The claim quantifies
over every title shorter than 6 characters; the empty string falsifies it.) -/
theorem c6_counterexample :
    c6S.title = some "Imagine" ∧
    (V1.step c6S ⟨mkRat 201 2, [], [], some (.title "")⟩).1.title = some "" ∧
    (V1.step c6S ⟨mkRat 201 2, [], [], some (.title "")⟩).1.pending = true := by
  exact ⟨by decide, by decide, by decide⟩

/-- C6 (amended): every non-empty title that passes the sanitizer and whose
whitespace-stripped length is below 6, arriving while the current identity
token equals the token of the last publish, is suppressed (title, pending
flag and deadline untouched, nothing published) when it arrives strictly
less than 2 seconds after the last publish, and is accepted (title stored,
window armed) when at least 2 seconds have elapsed. -/
theorem c6_tiny_fragment (s : V1.S) (now : ℚ) (cov pc : List (String × ℚ))
    (v p : String) (hv : v ≠ "") (hg : looks_garbage v = false)
    (hlen : (pyStrip v).length < 6)
    (hpid : s.persistent_id = some p) (hlpid : s.last_emit_pid = some p)
    (hp : p ≠ "") :
    (now - s.last_emit_ts < 2 →
      (V1.step s ⟨now, cov, pc, some (.title v)⟩).1.title = s.title ∧
      (V1.step s ⟨now, cov, pc, some (.title v)⟩).1.pending = s.pending ∧
      (V1.step s ⟨now, cov, pc, some (.title v)⟩).1.pending_deadline = s.pending_deadline ∧
      (V1.step s ⟨now, cov, pc, some (.title v)⟩).2 = []) ∧
    (2 ≤ now - s.last_emit_ts →
      (V1.step s ⟨now, cov, pc, some (.title v)⟩).1.title = some v ∧
      (V1.step s ⟨now, cov, pc, some (.title v)⟩).1.pending = true) := by
  rw [step_title_eq s now cov pc v hg]
  by_cases he : s.track_epoch ≤ 0 <;> simp only [he, if_true, if_false] <;>
  constructor
  all_goals intro ht
  case pos.left =>
    have htiny : V1.is_tiny_title_fragment { s with track_epoch := now } now v = true := by
      unfold V1.is_tiny_title_fragment
      dsimp only
      rw [if_neg hv, if_neg (not_le.mpr hlen)]
      have h3 : ¬ (2 ≤ qsub now s.last_emit_ts) := by
        rw [qsub_eq]; exact not_le.mpr ht
      rw [if_neg h3]
      simp [pyTruthy, hpid, hlpid, hp]
    simp only [htiny, if_true]
    simp
  case pos.right =>
    have htiny : V1.is_tiny_title_fragment { s with track_epoch := now } now v = false := by
      unfold V1.is_tiny_title_fragment
      dsimp only
      rw [if_neg hv, if_neg (not_le.mpr hlen)]
      have h3 : 2 ≤ qsub now s.last_emit_ts := by rw [qsub_eq]; exact ht
      rw [if_pos h3]
    simp only [htiny, Bool.false_eq_true, if_false]
    refine ⟨?_, ?_⟩
    · rw [start_settle_window_title]
    · exact start_settle_window_pending _ _
  case neg.left =>
    have htiny : V1.is_tiny_title_fragment s now v = true := by
      unfold V1.is_tiny_title_fragment
      rw [if_neg hv, if_neg (not_le.mpr hlen)]
      have h3 : ¬ (2 ≤ qsub now s.last_emit_ts) := by
        rw [qsub_eq]; exact not_le.mpr ht
      rw [if_neg h3]
      simp [pyTruthy, hpid, hlpid, hp]
    simp only [htiny, if_true]
    simp
  case neg.right =>
    have htiny : V1.is_tiny_title_fragment s now v = false := by
      unfold V1.is_tiny_title_fragment
      rw [if_neg hv, if_neg (not_le.mpr hlen)]
      have h3 : 2 ≤ qsub now s.last_emit_ts := by rw [qsub_eq]; exact ht
      rw [if_pos h3]
    simp only [htiny, Bool.false_eq_true, if_false]
    refine ⟨?_, ?_⟩
    · rw [start_settle_window_title]
    · exact start_settle_window_pending _ _

/-- Witness for C6: the 3-character title "Red" arriving 0.5 seconds after
the publish recorded in `c6S` is suppressed. -/
theorem c6_tiny_fragment_witness :
    (V1.step c6S ⟨mkRat 201 2, [], [], some (.title "Red")⟩).1.title = c6S.title ∧
    (V1.step c6S ⟨mkRat 201 2, [], [], some (.title "Red")⟩).2 = [] := by
  have h := (c6_tiny_fragment c6S (mkRat 201 2) [] [] "Red" "0x0A"
    (by decide) (by decide) (by decide) rfl rfl (by decide)).1
    (by norm_num [c6S, V1.initState, Rat.mkRat_eq_div])
  exact ⟨h.1, h.2.2.2⟩

/-- C8 (counterexample): in the sticky revision, a Title event arriving while
a window is already armed for the same session key restarts the window with a
fresh deadline (100 + 1.3 becomes 101 + 1.3), so a flood of titles can
postpone the publish indefinitely. -/
theorem c8_counterexample :
    c8S.pending = true ∧
    c8S.pending_pid = c8S.persistent_id ∧
    c8S.pending_deadline = mkRat 1013 10 ∧
    (V2.step c8S ⟨101, [], [], some (.title "Second Song")⟩).1.pending_deadline =
      mkRat 1023 10 := by
  exact ⟨by decide, by decide, by decide, by decide⟩

/-- C8 (amended): in the primary revision, arming while a window is already
armed keeps the existing deadline when the session key is unchanged since
arming, and restarts the window with a fresh deadline when it changed. -/
theorem c8_arm_policy (s : V1.S) (now : ℚ) (h : s.pending = true) :
    (s.pending_pid = s.persistent_id → V1.start_settle_window s now = s) ∧
    (s.pending_pid ≠ s.persistent_id →
      (V1.start_settle_window s now).pending = true ∧
      (V1.start_settle_window s now).pending_deadline = now + SETTLE_WINDOW_SEC ∧
      (V1.start_settle_window s now).pending_pid = s.persistent_id) := by
  constructor
  · intro hp
    unfold V1.start_settle_window
    rw [h]
    simp [hp]
  · intro hp
    unfold V1.start_settle_window
    rw [h]
    simp [hp, qadd_eq, h]

/-- Witness for C8: with the window of `c7S1` armed for the unchanged session
key 0x01, arming again at t = 101 leaves the state untouched. -/
theorem c8_arm_policy_witness :
    V1.start_settle_window c7S1 101 = c7S1 :=
  (c8_arm_policy c7S1 101 rfl).1 rfl

/-- C9 (counterexample): in the primary revision, publishing a line identical
to the last published line is always skipped, even when the current session
key equals the session key of that publish — there is no re-publish
exception. -/
theorem c9_counterexample :
    payloadLine "Song" "Band" "Record" "210" "images/default-album-cover.png?v=0x01" =
      c9S.last_emitted ∧
    c9S.last_emit_pid = c9S.persistent_id ∧
    c9S.persistent_id = some "0x01" ∧
    (V1.emit_payload c9S 101 "Song" "Band" "Record" "210"
        "images/default-album-cover.png?v=0x01").2 = [] := by
  exact ⟨by decide, by decide, by decide, by decide⟩

/-- C9 (amended): in the sticky revision's emit, an identical serialized line
is re-published anyway when the current session key equals the session key of
the last publish, is skipped when the keys differ, and a different line is
always published. -/
theorem c9_dedupe_policy (s : V2.S) (now : ℚ) (t a al dur cover : String)
    (p : String) (hpid : s.persistent_id = some p) (hp : p ≠ "") :
    (payloadLine t a al dur cover = s.last_emitted →
      ((s.last_emit_pid = some p →
         (V2.emit s now t a al dur cover).2 = [payloadLine t a al dur cover]) ∧
       (s.last_emit_pid ≠ some p →
         (V2.emit s now t a al dur cover).2 = []))) ∧
    (payloadLine t a al dur cover ≠ s.last_emitted →
      (V2.emit s now t a al dur cover).2 = [payloadLine t a al dur cover]) := by
  refine ⟨fun he => ⟨fun hl => ?_, fun hl => ?_⟩, fun he => ?_⟩
  · unfold V2.emit
    simp [he, hpid, hl, pyTruthy, hp]
  · unfold V2.emit
    simp only [hpid, pyTruthy]
    have hbeq : (s.last_emit_pid == some p) = false := by
      cases hb : s.last_emit_pid == some p
      · rfl
      · exact absurd (eq_of_beq hb) hl
    simp [he, hbeq]
  · unfold V2.emit
    simp [he]

/-- Witness for C9: re-publishing the identical line for the reused session
key 0x01 goes through in the sticky revision. -/
theorem c9_dedupe_policy_witness :
    (V2.emit c9S2 101 "Song" "Band" "Record" "210"
        "images/default-album-cover.png?v=0x01").2 =
      [payloadLine "Song" "Band" "Record" "210"
        "images/default-album-cover.png?v=0x01"] :=
  ((c9_dedupe_policy c9S2 101 "Song" "Band" "Record" "210"
      "images/default-album-cover.png?v=0x01" "0x01" rfl (by decide)).1 rfl).1 rfl

/-- The primary revision's emit publishes the line whenever nothing has been
published before. -/
lemma emit_payload_outs_of_fresh (s : V1.S) (now : ℚ)
    (t a al dur cover : String) (hle : s.last_emitted = "") :
    (V1.emit_payload s now t a al dur cover).2 =
      [payloadLine t a al dur cover] := by
  unfold V1.emit_payload
  dsimp only
  rw [if_neg]
  rw [hle]
  exact payloadLine_ne_empty _ _ _ _ _

/-- C10: at settle-window fire time, missing fields are replaced by fixed
defaults before serialization — an unset album becomes "AirPlay Source", an
unset artist the empty string and the initial duration "0" stays "0" — so
the published line has all six fields even when only a Title was received. -/
theorem c10_defaults (s : V1.S) (inp : Input) (t : String)
    (hp : s.pending = true) (hpid : s.pending_pid = s.persistent_id)
    (ht : s.title = some t) (htne : t ≠ "")
    (hart : s.artist = none) (halb : s.album = none) (hdur : s.duration = "0")
    (hle : s.last_emitted = "") :
    ∃ c, (V1.emit_pending s inp).2 =
      [payloadLine t "" "AirPlay Source" "0" c] := by
  unfold V1.emit_pending
  have hbeq : (t == "") = false := by simp [htne]
  simp only [hp, hpid, ht, hart, halb, hdur, pyTruthy, pyOr, hbeq, Bool.not_false,
    Bool.not_true, if_false, if_true, ne_eq, not_true_eq_false, Bool.false_eq_true]
  rw [if_neg htne, if_neg (by decide : ¬("0" = ""))]
  exact ⟨_, emit_payload_outs_of_fresh s inp.now t "" "AirPlay Source" "0" _ hle⟩

/-- Witness for C10: with only a title ("Song") ever received, the fired
window publishes `Song~~~~~~AirPlay Source~~~0~~~<cover>~~~ALAC/AAC`. -/
theorem c10_defaults_witness :
    ∃ c, (V1.emit_pending c10S ⟨mkRat 1015 10, [], [], none⟩).2 =
      [payloadLine "Song" "" "AirPlay Source" "0" c] :=
  c10_defaults c10S ⟨mkRat 1015 10, [], [], none⟩ "Song" rfl rfl rfl
    (by decide) rfl rfl rfl rfl

end Aplmeta
